import Mathlib

/-!
Verification of the vouch-protocol verifier program
(programs/vouch-verifier/src/lib.rs) against its specification.

The embedding is shallow: each Anchor instruction handler becomes a Lean
function from the records it reads to `Except VouchError` of the records it
writes.  A Solana instruction that returns an error commits none of its
writes, so an `Except.error` result stands for the aborted call: the
committed state is unchanged.  Account constraints declared on the Anchor
accounts struct run before the handler body, in field order, and are
embedded as leading checks.  Machine integers are `Nat` (u8/u32/u64) and
`Int` (i64) with explicit bounds where overflow matters; byte arrays are
`List Nat`.
-/

deriving instance DecidableEq for Except

namespace VouchProtocol

/-- Largest u32 value, bound used by checked u32 addition. -/
def U32_MAX : Nat := 4294967295

/-- Largest u64 value, bound used by checked u64 addition. -/
def U64_MAX : Nat := 18446744073709551615

/-- Smallest i64 value, lower saturation bound of i64 subtraction. -/
def I64_MIN : Int := -9223372036854775808

/-- Largest i64 value, upper saturation bound of i64 subtraction. -/
def I64_MAX : Int := 9223372036854775807

/-- Rust u32 checked_add: `none` on wrap past u32::MAX. -/
def u32CheckedAdd (a b : Nat) : Option Nat :=
  if a + b ≤ U32_MAX then some (a + b) else none

/-- Rust u64 checked_add: `none` on wrap past u64::MAX. -/
def u64CheckedAdd (a b : Nat) : Option Nat :=
  if a + b ≤ U64_MAX then some (a + b) else none

/-- Rust i64 saturating_sub: a - b clamped to the i64 range.  Note this
saturates at the i64 bounds, not at zero: the result is negative whenever
b exceeds a within range. -/
def i64SaturatingSub (a b : Int) : Int :=
  max I64_MIN (min I64_MAX (a - b))

/-- Constant DEFAULT_MAX_PROOFS_PER_DAY of lib.rs. -/
def DEFAULT_MAX_PROOFS_PER_DAY : Nat := 10

/-- Constant DEFAULT_COOLDOWN_SECONDS of lib.rs. -/
def DEFAULT_COOLDOWN_SECONDS : Int := 60

/-- Constant SECONDS_PER_DAY of lib.rs. -/
def SECONDS_PER_DAY : Int := 86400

/-- Constant ED25519_PUBKEY_SIZE of lib.rs. -/
def ED25519_PUBKEY_SIZE : Nat := 32

/-- Constant ED25519_SIGNATURE_SIZE of lib.rs. -/
def ED25519_SIGNATURE_SIZE : Nat := 64

/-- Error enum VouchError of lib.rs. -/
inductive VouchError where
  | InvalidProofType
  | NullifierAlreadyUsed
  | CommitmentNotFound
  | InvalidCommitment
  | Unauthorized
  | VerifierNotAuthorized
  | InvalidSignature
  | ProtocolPaused
  | NotPaused
  | AlreadyPaused
  | RateLimitCooldown
  | DailyRateLimitExceeded
  | InvalidRateLimit
  | Overflow
  | NameTooLong
  | InvalidDeadline
  | InvalidAmount
  | CampaignNotOpen
  | RegistrationClosed
  | NullifierNotVerified
  | InvalidShadowWireAddress
  | AlreadyDistributed
  | CampaignNotClosed
  | InvalidCampaign
  | InsufficientFunds
  | AlreadyClaimed
  | InvalidMint
  deriving DecidableEq, Repr

/-- Enum ProofType of lib.rs. -/
inductive ProofType where
  | Unset
  | DeveloperReputation
  | WhaleTrading
  deriving DecidableEq, Repr

/-- Enum CampaignStatus of lib.rs. -/
inductive CampaignStatus where
  | Open
  | RegistrationClosed
  | Completed
  deriving DecidableEq, Repr

/-- Account ConfigAccount of lib.rs.  Pubkeys are opaque 32-byte strings,
kept as `List Nat`. -/
structure ConfigAccount where
  admin : List Nat
  pause_authority : List Nat
  verifier_count : Nat
  is_paused : Bool
  max_proofs_per_day : Nat
  cooldown_seconds : Int
  total_proofs_verified : Nat
  bump : Nat
  deriving DecidableEq, Repr

/-- Account VerifierAccount of lib.rs. -/
structure VerifierAccount where
  verifier : List Nat
  is_active : Bool
  added_at : Int
  attestation_count : Nat
  bump : Nat
  deriving DecidableEq, Repr

/-- Account WalletRateLimit of lib.rs. -/
structure WalletRateLimit where
  wallet : List Nat
  proofs_today : Nat
  last_proof_at : Int
  day_start : Int
  total_proofs : Nat
  bump : Nat
  deriving DecidableEq, Repr

/-- Account NullifierAccount of lib.rs. -/
structure NullifierAccount where
  nullifier : List Nat
  is_used : Bool
  used_at : Int
  proof_type : ProofType
  bump : Nat
  deriving DecidableEq, Repr

/-- Account AirdropCampaign of lib.rs. -/
structure AirdropCampaign where
  campaign_id : List Nat
  creator : List Nat
  name : String
  token_mint : List Nat
  base_amount : Nat
  dev_bonus : Nat
  whale_bonus : Nat
  registration_deadline : Int
  status : CampaignStatus
  total_registrations : Nat
  open_registrations : Nat
  dev_registrations : Nat
  whale_registrations : Nat
  created_at : Int
  completed_at : Int
  vault_balance : Nat
  total_claimed : Nat
  bump : Nat
  deriving DecidableEq, Repr

/-- Account AirdropRegistrationAccount of lib.rs. -/
structure AirdropRegistrationAccount where
  campaign : List Nat
  nullifier : List Nat
  shadow_wire_address : String
  proof_type : ProofType
  registered_at : Int
  is_distributed : Bool
  distributed_at : Int
  distribution_tx : String
  is_claimed : Bool
  claimed_at : Int
  claimed_amount : Nat
  bump : Nat
  deriving DecidableEq, Repr

/-- One transaction instruction as seen through the instructions sysvar:
its program id and its raw data bytes. -/
structure Instruction where
  program_id : List Nat
  data : List Nat
  deriving DecidableEq, Repr

/-- The ed25519_program::ID pubkey.  Its concrete bytes never matter to the
program: it is only compared for equality, so it is embedded as an opaque
fixed 32-byte value. -/
def ed25519ProgramId : List Nat := List.replicate 31 0 ++ [237]

/-- Little-endian u16 from two bytes, as u16::from_le_bytes([lo, hi]). -/
def leU16 (lo hi : Nat) : Nat := lo + 256 * hi

/-- Handler init_rate_limit of lib.rs: the freshly created WalletRateLimit
record (proofs_today = 0, last_proof_at = 0, day_start = now, total_proofs
= 0). -/
def init_rate_limit (wallet : List Nat) (now : Int) (bump : Nat) : WalletRateLimit :=
  { wallet := wallet
    proofs_today := 0
    last_proof_at := 0
    day_start := now
    total_proofs := 0
    bump := bump }

/-- Handler init_nullifier of lib.rs: the freshly created NullifierAccount
record (is_used = false, used_at = 0, proof_type = Unset). -/
def init_nullifier (nullifier : List Nat) (bump : Nat) : NullifierAccount :=
  { nullifier := nullifier
    is_used := false
    used_at := 0
    proof_type := ProofType.Unset
    bump := bump }

/-- Helper check_and_update_rate_limit of lib.rs.  The Rust code mutates the
record in place; here the updated record is returned on success, and an
error result stands for the aborted call, whose writes are all rolled
back. -/
def check_and_update_rate_limit (rate_limit : WalletRateLimit) (config : ConfigAccount)
    (now : Int) : Except VouchError WalletRateLimit :=
  -- require!(now.saturating_sub(last_proof_at) >= cooldown_seconds)
  if i64SaturatingSub now rate_limit.last_proof_at < config.cooldown_seconds then
    .error .RateLimitCooldown
  else
    -- reset daily counter if new day
    let rl1 :=
      if SECONDS_PER_DAY ≤ i64SaturatingSub now rate_limit.day_start then
        { rate_limit with day_start := now, proofs_today := 0 }
      else rate_limit
    -- require!(proofs_today < max_proofs_per_day)
    if rl1.proofs_today < config.max_proofs_per_day then
      match u32CheckedAdd rl1.proofs_today 1 with
      | none => .error .Overflow
      | some pt =>
        match u64CheckedAdd rl1.total_proofs 1 with
        | none => .error .Overflow
        | some tp =>
          .ok { rl1 with proofs_today := pt, last_proof_at := now, total_proofs := tp }
    else .error .DailyRateLimitExceeded

/-- The 17-byte ASCII domain separator "vouch_attestation". -/
def vouchAttestationTag : List Nat := "vouch_attestation".data.map (fun c => c.toNat)

/-- Helper build_attestation_message of lib.rs.  The Rust code fills an
82-byte buffer by copying the tag into bytes 0..17, the proof-type byte at
17, the nullifier into 18..50 and the attestation hash into 50..82; for
32-byte inputs that buffer is exactly this concatenation. -/
def build_attestation_message (proof_type_value : Nat) (nullifier : List Nat)
    (attestation_hash : List Nat) : List Nat :=
  vouchAttestationTag ++ [proof_type_value] ++ nullifier ++ attestation_hash

/-- The instruction-data checks of verify_ed25519_signature of lib.rs,
from the num_signatures byte to the three exact byte comparisons, over the
loaded Ed25519 instruction's data bytes.  The source binds the locals
sig_offset, pubkey_offset, msg_offset and msg_size; they are inlined here:
sig_offset is the little-endian u16 at data bytes 2..3, pubkey_offset at
6..7, msg_offset at 10..11 and msg_size at 12..13. -/
def check_ed25519_instruction_data (ix_data : List Nat)
    (verifier_pubkey signature message : List Nat) : Except VouchError Unit :=
  if ix_data.length < 2 then .error .InvalidSignature
  else if ix_data.getD 0 0 ≠ 1 then .error .InvalidSignature
  else if ix_data.length < 16 then .error .InvalidSignature
  else if ix_data.length <
      leU16 (ix_data.getD 2 0) (ix_data.getD 3 0) + ED25519_SIGNATURE_SIZE then
    .error .InvalidSignature
  else if ix_data.length <
      leU16 (ix_data.getD 6 0) (ix_data.getD 7 0) + ED25519_PUBKEY_SIZE then
    .error .InvalidSignature
  else if ix_data.length <
      leU16 (ix_data.getD 10 0) (ix_data.getD 11 0) +
        leU16 (ix_data.getD 12 0) (ix_data.getD 13 0) then
    .error .InvalidSignature
  else if (ix_data.drop (leU16 (ix_data.getD 2 0) (ix_data.getD 3 0))).take
      ED25519_SIGNATURE_SIZE ≠ signature then
    .error .InvalidSignature
  else if (ix_data.drop (leU16 (ix_data.getD 6 0) (ix_data.getD 7 0))).take
      ED25519_PUBKEY_SIZE ≠ verifier_pubkey then
    .error .InvalidSignature
  else if (ix_data.drop (leU16 (ix_data.getD 10 0) (ix_data.getD 11 0))).take
      (leU16 (ix_data.getD 12 0) (ix_data.getD 13 0)) ≠ message then
    .error .InvalidSignature
  else .ok ()

/-- Helper verify_ed25519_signature of lib.rs.  `currentIndex` is what
load_current_index_checked reads from the instructions sysvar and
`instructions` the transaction's instruction list that
load_instruction_at_checked indexes into; failures of either load map to
InvalidSignature, as does a missing instruction at currentIndex - 1. -/
def verify_ed25519_signature (currentIndex : Nat) (instructions : List Instruction)
    (verifier_pubkey : List Nat) (signature : List Nat) (message : List Nat) :
    Except VouchError Unit :=
  if currentIndex = 0 then .error .InvalidSignature
  else
    match instructions.get? (currentIndex - 1) with
    | none => .error .InvalidSignature
    | some ed25519_ix =>
      if ed25519_ix.program_id ≠ ed25519ProgramId then .error .InvalidSignature
      else check_ed25519_instruction_data ed25519_ix.data verifier_pubkey signature message

/-- The records instruction record_attestation reads and writes. -/
structure RecordAttestationState where
  config : ConfigAccount
  verifier_account : VerifierAccount
  nullifier_account : NullifierAccount
  rate_limit : WalletRateLimit
  deriving DecidableEq, Repr

/-- Handler record_attestation of lib.rs, preceded by the semantic account
constraints of the RecordAttestation accounts struct, which Anchor checks
in field order before the handler runs: verifier_account.is_active
(VerifierNotAuthorized) and then !nullifier_account.is_used
(NullifierAlreadyUsed).  In the source the nullifier record's is_used and
used_at fields are assigned just before the proof-type match aborts on an
unknown code; an aborted instruction commits nothing, so the embedding
returns the error with no partial write. -/
def record_attestation (s : RecordAttestationState)
    (currentIndex : Nat) (instructions : List Instruction)
    (attestation_hash : List Nat) (proof_type_value : Nat) (nullifier : List Nat)
    (signature : List Nat) (now : Int) : Except VouchError RecordAttestationState :=
  -- account constraints, in accounts-struct field order
  if ¬ s.verifier_account.is_active then .error .VerifierNotAuthorized
  else if s.nullifier_account.is_used then .error .NullifierAlreadyUsed
  -- handler body
  else if s.config.is_paused then .error .ProtocolPaused
  else if ¬ s.verifier_account.is_active then .error .VerifierNotAuthorized
  else
    match check_and_update_rate_limit s.rate_limit s.config now with
    | .error e => .error e
    | .ok rate_limit1 =>
      let message := build_attestation_message proof_type_value nullifier attestation_hash
      match verify_ed25519_signature currentIndex instructions
          s.verifier_account.verifier signature message with
      | .error e => .error e
      | .ok _ =>
        if s.nullifier_account.is_used then .error .NullifierAlreadyUsed
        else
          match (match proof_type_value with
                 | 1 => some ProofType.DeveloperReputation
                 | 2 => some ProofType.WhaleTrading
                 | _ => none) with
          | none => .error .InvalidProofType
          | some pt =>
            match u64CheckedAdd s.verifier_account.attestation_count 1 with
            | none => .error .Overflow
            | some ac =>
              match u64CheckedAdd s.config.total_proofs_verified 1 with
              | none => .error .Overflow
              | some tpv =>
                .ok { config := { s.config with total_proofs_verified := tpv }
                      verifier_account := { s.verifier_account with attestation_count := ac }
                      nullifier_account := { s.nullifier_account with
                                             is_used := true, used_at := now, proof_type := pt }
                      rate_limit := rate_limit1 }

/-- Handler create_airdrop_campaign of lib.rs. -/
def create_airdrop_campaign (campaign_id : List Nat) (creator : List Nat) (name : String)
    (token_mint : List Nat) (base_amount dev_bonus whale_bonus : Nat)
    (registration_deadline : Int) (now : Int) (bump : Nat) :
    Except VouchError AirdropCampaign :=
  if ¬ name.length ≤ 64 then .error .NameTooLong
  else if ¬ registration_deadline > now then .error .InvalidDeadline
  else if ¬ base_amount > 0 then .error .InvalidAmount
  else
    .ok { campaign_id := campaign_id
          creator := creator
          name := name
          token_mint := token_mint
          base_amount := base_amount
          dev_bonus := dev_bonus
          whale_bonus := whale_bonus
          registration_deadline := registration_deadline
          status := CampaignStatus.Open
          total_registrations := 0
          open_registrations := 0
          dev_registrations := 0
          whale_registrations := 0
          created_at := now
          completed_at := 0
          vault_balance := 0
          total_claimed := 0
          bump := bump }

/-- Handler register_for_airdrop of lib.rs: registration against a used
nullifier record.  Returns the updated campaign together with the created
registration record.  `campaignKey` is the campaign account's address, the
value campaign.key() that the handler stores in the registration. -/
def register_for_airdrop (campaign : AirdropCampaign) (nullifier_account : NullifierAccount)
    (shadow_wire_address : String) (campaignKey : List Nat) (now : Int) (bump : Nat) :
    Except VouchError (AirdropCampaign × AirdropRegistrationAccount) :=
  if ¬ campaign.status = CampaignStatus.Open then .error .CampaignNotOpen
  else if ¬ now < campaign.registration_deadline then .error .RegistrationClosed
  else if ¬ nullifier_account.is_used then .error .NullifierNotVerified
  else if ¬ (32 ≤ shadow_wire_address.length ∧ shadow_wire_address.length ≤ 44) then
    .error .InvalidShadowWireAddress
  else
    let registration : AirdropRegistrationAccount :=
      { campaign := campaignKey
        nullifier := nullifier_account.nullifier
        shadow_wire_address := shadow_wire_address
        proof_type := nullifier_account.proof_type
        registered_at := now
        is_distributed := false
        distributed_at := 0
        distribution_tx := ""
        is_claimed := false
        claimed_at := 0
        claimed_amount := 0
        bump := bump }
    match u32CheckedAdd campaign.total_registrations 1 with
    | none => .error .Overflow
    | some tr =>
      match nullifier_account.proof_type with
      | ProofType.DeveloperReputation =>
        match u32CheckedAdd campaign.dev_registrations 1 with
        | none => .error .Overflow
        | some dr =>
          .ok ({ campaign with total_registrations := tr, dev_registrations := dr },
               registration)
      | ProofType.WhaleTrading =>
        match u32CheckedAdd campaign.whale_registrations 1 with
        | none => .error .Overflow
        | some wr =>
          .ok ({ campaign with total_registrations := tr, whale_registrations := wr },
               registration)
      | ProofType.Unset => .error .InvalidProofType

/-- Handler register_for_airdrop_open of lib.rs: open registration keyed by
the payer's wallet bytes, proof_type recorded as Unset. -/
def register_for_airdrop_open (campaign : AirdropCampaign) (payerKey : List Nat)
    (shadow_wire_address : String) (campaignKey : List Nat) (now : Int) (bump : Nat) :
    Except VouchError (AirdropCampaign × AirdropRegistrationAccount) :=
  if ¬ campaign.status = CampaignStatus.Open then .error .CampaignNotOpen
  else if ¬ now < campaign.registration_deadline then .error .RegistrationClosed
  else if ¬ (32 ≤ shadow_wire_address.length ∧ shadow_wire_address.length ≤ 44) then
    .error .InvalidShadowWireAddress
  else
    let registration : AirdropRegistrationAccount :=
      { campaign := campaignKey
        nullifier := payerKey
        shadow_wire_address := shadow_wire_address
        proof_type := ProofType.Unset
        registered_at := now
        is_distributed := false
        distributed_at := 0
        distribution_tx := ""
        is_claimed := false
        claimed_at := 0
        claimed_amount := 0
        bump := bump }
    match u32CheckedAdd campaign.total_registrations 1 with
    | none => .error .Overflow
    | some tr =>
      match u32CheckedAdd campaign.open_registrations 1 with
      | none => .error .Overflow
      | some opn =>
        .ok ({ campaign with total_registrations := tr, open_registrations := opn },
             registration)

/-- Handler close_airdrop_registration of lib.rs (the creator-only account
constraint is the caller's authorization and is presupposed; the claim set
treats the transition as a creator-invoked action). -/
def close_airdrop_registration (campaign : AirdropCampaign) :
    Except VouchError AirdropCampaign :=
  if campaign.status = CampaignStatus.Open then
    .ok { campaign with status := CampaignStatus.RegistrationClosed }
  else .error .CampaignNotOpen

/-- Handler mark_airdrop_distributed of lib.rs. -/
def mark_airdrop_distributed (registration : AirdropRegistrationAccount)
    (tx_signature : String) (now : Int) : Except VouchError AirdropRegistrationAccount :=
  if registration.is_distributed then .error .AlreadyDistributed
  else
    .ok { registration with
          is_distributed := true
          distributed_at := now
          distribution_tx := tx_signature }

/-- Handler complete_airdrop_campaign of lib.rs. -/
def complete_airdrop_campaign (campaign : AirdropCampaign) (now : Int) :
    Except VouchError AirdropCampaign :=
  if campaign.status = CampaignStatus.RegistrationClosed then
    .ok { campaign with status := CampaignStatus.Completed, completed_at := now }
  else .error .CampaignNotClosed

/-- Handler fund_airdrop_campaign of lib.rs.  The SPL transfer from the
creator's token account to the vault is the external asset-ledger step;
its effect on the vault token account is amount credited on success. -/
def fund_airdrop_campaign (campaign : AirdropCampaign) (amount : Nat) :
    Except VouchError AirdropCampaign :=
  if ¬ amount > 0 then .error .InvalidAmount
  else if ¬ (campaign.status = CampaignStatus.Open ∨
             campaign.status = CampaignStatus.RegistrationClosed) then
    .error .CampaignNotOpen
  else
    match u64CheckedAdd campaign.vault_balance amount with
    | none => .error .Overflow
    | some vb => .ok { campaign with vault_balance := vb }

/-- The claim amount match inside claim_airdrop of lib.rs:
base_amount.checked_add(dev_bonus) for DeveloperReputation,
base_amount.checked_add(whale_bonus) for WhaleTrading, and plain
base_amount for Unset. -/
def airdrop_claim_amount (campaign : AirdropCampaign) (pt : ProofType) : Option Nat :=
  match pt with
  | ProofType.DeveloperReputation => u64CheckedAdd campaign.base_amount campaign.dev_bonus
  | ProofType.WhaleTrading => u64CheckedAdd campaign.base_amount campaign.whale_bonus
  | ProofType.Unset => some campaign.base_amount

/-- The records and token balances instruction claim_airdrop reads and
writes: the campaign, the claimer's registration (bound to the campaign by
its derived address), the vault token account's amount and the claimer
token account's amount. -/
structure ClaimAirdropState where
  campaign : AirdropCampaign
  registration : AirdropRegistrationAccount
  vault_amount : Nat
  claimer_amount : Nat
  deriving DecidableEq, Repr

/-- Handler claim_airdrop of lib.rs, with the !registration.is_claimed
account constraint (AlreadyClaimed) checked first, as in both the accounts
struct and the handler.  The SPL transfer debits the vault and credits the
claimer; it cannot fail after the vault-amount check. -/
def claim_airdrop (s : ClaimAirdropState) (now : Int) : Except VouchError ClaimAirdropState :=
  if s.registration.is_claimed then .error .AlreadyClaimed
  else
    match airdrop_claim_amount s.campaign s.registration.proof_type with
    | none => .error .Overflow
    | some claim_amount =>
      if s.vault_amount < claim_amount then .error .InsufficientFunds
      else
        match u32CheckedAdd s.campaign.total_claimed 1 with
        | none => .error .Overflow
        | some tc =>
          .ok { campaign := { s.campaign with
                              vault_balance := s.campaign.vault_balance - claim_amount
                              total_claimed := tc }
                registration := { s.registration with
                                  is_claimed := true
                                  claimed_at := now
                                  claimed_amount := claim_amount }
                vault_amount := s.vault_amount - claim_amount
                claimer_amount := s.claimer_amount + claim_amount }

/-- Rank of a campaign status in the forward order
Open < RegistrationClosed < Completed. -/
def statusRank (st : CampaignStatus) : Nat :=
  match st with
  | CampaignStatus.Open => 0
  | CampaignStatus.RegistrationClosed => 1
  | CampaignStatus.Completed => 2

/-- One successful program operation acting on a given campaign record:
these are all the instructions of lib.rs that write the AirdropCampaign
account. -/
inductive CampaignStep : AirdropCampaign → AirdropCampaign → Prop where
  | close {c c1 : AirdropCampaign} :
      close_airdrop_registration c = .ok c1 → CampaignStep c c1
  | complete {c c1 : AirdropCampaign} {now : Int} :
      complete_airdrop_campaign c now = .ok c1 → CampaignStep c c1
  | fund {c c1 : AirdropCampaign} {amount : Nat} :
      fund_airdrop_campaign c amount = .ok c1 → CampaignStep c c1
  | registerVerified {c c1 : AirdropCampaign} {na : NullifierAccount} {swa : String}
      {key : List Nat} {now : Int} {bump : Nat} {reg : AirdropRegistrationAccount} :
      register_for_airdrop c na swa key now bump = .ok (c1, reg) → CampaignStep c c1
  | registerOpen {c c1 : AirdropCampaign} {payer : List Nat} {swa : String}
      {key : List Nat} {now : Int} {bump : Nat} {reg : AirdropRegistrationAccount} :
      register_for_airdrop_open c payer swa key now bump = .ok (c1, reg) → CampaignStep c c1
  | claim {c : AirdropCampaign} {reg : AirdropRegistrationAccount} {va ca : Nat}
      {now : Int} {s1 : ClaimAirdropState} :
      claim_airdrop { campaign := c, registration := reg, vault_amount := va,
                      claimer_amount := ca } now = .ok s1 → CampaignStep c s1.campaign

/-- Reachable states of one wallet's rate-limit record under a fixed
rate-limit configuration: the record as init_rate_limit creates it,
closed under successful check_and_update_rate_limit calls (the only
instruction of lib.rs that writes the record after creation is
record_attestation, through this helper). -/
inductive RateLimitReachable (config : ConfigAccount) : WalletRateLimit → Prop where
  | init (wallet : List Nat) (now : Int) (bump : Nat) :
      RateLimitReachable config (init_rate_limit wallet now bump)
  | step {rl rl1 : WalletRateLimit} {now : Int} :
      RateLimitReachable config rl →
      check_and_update_rate_limit rl config now = .ok rl1 →
      RateLimitReachable config rl1

/-! ## Concrete inputs used by witnesses and counterexamples -/

/-- Demo wallet pubkey bytes. -/
def demoWallet : List Nat := List.replicate 32 7

/-- Demo verifier pubkey bytes. -/
def demoVerifierPk : List Nat := List.replicate 32 9

/-- Demo nullifier bytes. -/
def demoNullifier : List Nat := List.replicate 32 3

/-- Demo attestation hash bytes. -/
def demoHash : List Nat := List.replicate 32 5

/-- Demo signature bytes. -/
def demoSig : List Nat := List.replicate 64 8

/-- Demo protocol config: unpaused, the default limits of initialize_config. -/
def demoConfig : ConfigAccount :=
  { admin := List.replicate 32 1
    pause_authority := List.replicate 32 1
    verifier_count := 1
    is_paused := false
    max_proofs_per_day := DEFAULT_MAX_PROOFS_PER_DAY
    cooldown_seconds := DEFAULT_COOLDOWN_SECONDS
    total_proofs_verified := 0
    bump := 255 }

/-- Demo active verifier record. -/
def demoVerifier : VerifierAccount :=
  { verifier := demoVerifierPk, is_active := true, added_at := 0,
    attestation_count := 0, bump := 255 }

/-- Demo campaign with base 100, dev bonus 50, whale bonus 200, still open. -/
def demoCampaign : AirdropCampaign :=
  { campaign_id := List.replicate 32 2
    creator := List.replicate 32 4
    name := "demo"
    token_mint := List.replicate 32 6
    base_amount := 100
    dev_bonus := 50
    whale_bonus := 200
    registration_deadline := 3600
    status := CampaignStatus.Open
    total_registrations := 1
    open_registrations := 0
    dev_registrations := 1
    whale_registrations := 0
    created_at := 0
    completed_at := 0
    vault_balance := 500
    total_claimed := 0
    bump := 254 }

/-- Demo registration for demoCampaign, developer tier, not claimed, not
distributed. -/
def demoRegistration : AirdropRegistrationAccount :=
  { campaign := List.replicate 32 11
    nullifier := demoNullifier
    shadow_wire_address := String.mk (List.replicate 40 (Char.ofNat 97))
    proof_type := ProofType.DeveloperReputation
    registered_at := 10
    is_distributed := false
    distributed_at := 0
    distribution_tx := ""
    is_claimed := false
    claimed_at := 0
    claimed_amount := 0
    bump := 253 }

/-- Demo claim state: demoCampaign, demoRegistration, a funded vault. -/
def demoClaimState : ClaimAirdropState :=
  { campaign := demoCampaign
    registration := demoRegistration
    vault_amount := 500
    claimer_amount := 0 }

/-! ## C8: attestation message wire format -/

/-- C8: for every proof-type code and 32-byte nullifier and attestation
hash, build_attestation_message returns exactly 82 bytes: bytes 0..16 the
ASCII tag "vouch_attestation", byte 17 the proof-type code, bytes 18..49
the nullifier and bytes 50..81 the attestation hash. -/
theorem attestation_message_layout (proof_type_value : Nat)
    (nullifier attestation_hash : List Nat)
    (hn : nullifier.length = 32) (hh : attestation_hash.length = 32) :
    (build_attestation_message proof_type_value nullifier attestation_hash).length = 82 ∧
    (build_attestation_message proof_type_value nullifier attestation_hash).take 17 =
      vouchAttestationTag ∧
    (build_attestation_message proof_type_value nullifier attestation_hash).getD 17 0 =
      proof_type_value ∧
    ((build_attestation_message proof_type_value nullifier attestation_hash).drop 18).take 32 =
      nullifier ∧
    ((build_attestation_message proof_type_value nullifier attestation_hash).drop 50).take 32 =
      attestation_hash := by
  have htag : vouchAttestationTag.length = 17 := by decide
  have h1 : build_attestation_message proof_type_value nullifier attestation_hash =
      vouchAttestationTag ++ ([proof_type_value] ++ (nullifier ++ attestation_hash)) := by
    simp [build_attestation_message, List.append_assoc]
  have h2 : build_attestation_message proof_type_value nullifier attestation_hash =
      (vouchAttestationTag ++ [proof_type_value]) ++ (nullifier ++ attestation_hash) := by
    simp [build_attestation_message, List.append_assoc]
  have h3 : build_attestation_message proof_type_value nullifier attestation_hash =
      ((vouchAttestationTag ++ [proof_type_value]) ++ nullifier) ++ attestation_hash := by
    simp [build_attestation_message, List.append_assoc]
  refine ⟨?_, ?_, ?_, ?_, ?_⟩
  · rw [h3]; simp [htag, hn, hh]
  · rw [h1]; exact List.take_left' htag
  · rw [h1, List.getD_append_right _ _ _ _ (by rw [htag])]
    simp [htag]
  · rw [h2, List.drop_left' (by simp [htag])]
    exact List.take_left' hn
  · rw [h3, List.drop_left' (by simp [htag, hn])]
    exact List.take_of_length_le hh.le

/-- Witness for C8 at the demo nullifier and hash. -/
theorem attestation_message_layout_witness :
    ((build_attestation_message 1 demoNullifier demoHash).drop 18).take 32 = demoNullifier :=
  (attestation_message_layout 1 demoNullifier demoHash (by decide) (by decide)).2.2.2.1

/-! ## C5: a claimed registration can never be paid again -/

/-- C5: a claim_airdrop call on a registration whose is_claimed flag is
already set fails with AlreadyClaimed.  The error result is the aborted
instruction: no token is transferred and no record is written, so a
registration is paid at most once. -/
theorem claim_airdrop_already_claimed (s : ClaimAirdropState) (now : Int)
    (h : s.registration.is_claimed = true) :
    claim_airdrop s now = .error .AlreadyClaimed := by
  unfold claim_airdrop
  simp [h]

/-- Witness for C5: the demo registration, after a first successful claim,
is rejected. -/
theorem claim_airdrop_already_claimed_witness :
    claim_airdrop { demoClaimState with
                    registration := { demoRegistration with is_claimed := true } } 20 =
      .error .AlreadyClaimed :=
  claim_airdrop_already_claimed _ 20 rfl

/-! ## C4: the claim amount is a pure tiered function of the proof type -/

/-- C4: when claim_airdrop succeeds, the amount recorded on the
registration and credited to the claimer is base_amount + dev_bonus for
DeveloperReputation, base_amount + whale_bonus for WhaleTrading, and
exactly base_amount for Unset; and each checked addition fails the call
with Overflow when it would wrap past u64::MAX. -/
theorem claim_amount_tiered (s : ClaimAirdropState) (now : Int) :
    (∀ s1, claim_airdrop s now = .ok s1 →
      s1.registration.claimed_amount =
        s.campaign.base_amount +
          (match s.registration.proof_type with
           | ProofType.DeveloperReputation => s.campaign.dev_bonus
           | ProofType.WhaleTrading => s.campaign.whale_bonus
           | ProofType.Unset => 0) ∧
      s1.claimer_amount = s.claimer_amount + s1.registration.claimed_amount) ∧
    (s.registration.is_claimed = false →
      s.registration.proof_type = ProofType.DeveloperReputation →
      U64_MAX < s.campaign.base_amount + s.campaign.dev_bonus →
      claim_airdrop s now = .error .Overflow) ∧
    (s.registration.is_claimed = false →
      s.registration.proof_type = ProofType.WhaleTrading →
      U64_MAX < s.campaign.base_amount + s.campaign.whale_bonus →
      claim_airdrop s now = .error .Overflow) := by
  refine ⟨?_, ?_, ?_⟩
  · intro s1 hok
    unfold claim_airdrop at hok
    split at hok
    · simp at hok
    · split at hok
      · simp at hok
      · rename_i a hamt
        split at hok
        · simp at hok
        · split at hok
          · simp at hok
          · rename_i tc htc
            simp only [Except.ok.injEq] at hok
            subst hok
            have hval : a = s.campaign.base_amount +
                (match s.registration.proof_type with
                 | ProofType.DeveloperReputation => s.campaign.dev_bonus
                 | ProofType.WhaleTrading => s.campaign.whale_bonus
                 | ProofType.Unset => 0) := by
              unfold airdrop_claim_amount u64CheckedAdd at hamt
              cases hpt : s.registration.proof_type
              · rw [hpt] at hamt
                simp only [hpt]
                simp at hamt ⊢
                omega
              · rw [hpt] at hamt
                simp only [hpt]
                split at hamt <;> simp_all
              · rw [hpt] at hamt
                simp only [hpt]
                split at hamt <;> simp_all
            exact ⟨hval, rfl⟩
  · intro hcl hpt hov
    unfold claim_airdrop
    simp only [hcl, Bool.false_eq_true, if_false]
    have : airdrop_claim_amount s.campaign s.registration.proof_type = none := by
      unfold airdrop_claim_amount u64CheckedAdd
      rw [hpt]
      simp [Nat.not_le_of_lt hov]
    rw [this]
  · intro hcl hpt hov
    unfold claim_airdrop
    simp only [hcl, Bool.false_eq_true, if_false]
    have : airdrop_claim_amount s.campaign s.registration.proof_type = none := by
      unfold airdrop_claim_amount u64CheckedAdd
      rw [hpt]
      simp [Nat.not_le_of_lt hov]
    rw [this]

/-! ## C7: behavior of check_and_update_rate_limit -/

/-- C7 (amended): check_and_update_rate_limit computes elapsed as the i64
saturating difference now - last_proof_at, which clamps at the i64 bounds
and is negative when the clock moves backward (not saturated at zero), and
fails with RateLimitCooldown iff elapsed < cooldown_seconds; otherwise,
when now - day_start has reached 86400 it resets day_start = now and
proofs_today = 0 (rolling window); then it fails with
DailyRateLimitExceeded iff proofs_today ≥ max_proofs_per_day; on success
it increments proofs_today and total_proofs with checked addition
(Overflow on wrap) and sets last_proof_at = now.  A failure is the aborted
instruction, so the committed record is unchanged. -/
theorem rate_limit_step_spec (rl : WalletRateLimit) (config : ConfigAccount) (now : Int) :
    (i64SaturatingSub now rl.last_proof_at < config.cooldown_seconds →
      check_and_update_rate_limit rl config now = .error .RateLimitCooldown) ∧
    (¬ i64SaturatingSub now rl.last_proof_at < config.cooldown_seconds →
      (let rl1 := if SECONDS_PER_DAY ≤ i64SaturatingSub now rl.day_start
                  then { rl with day_start := now, proofs_today := 0 } else rl
       (config.max_proofs_per_day ≤ rl1.proofs_today →
         check_and_update_rate_limit rl config now = .error .DailyRateLimitExceeded) ∧
       (rl1.proofs_today < config.max_proofs_per_day →
        U32_MAX < rl1.proofs_today + 1 →
         check_and_update_rate_limit rl config now = .error .Overflow) ∧
       (rl1.proofs_today < config.max_proofs_per_day →
        rl1.proofs_today + 1 ≤ U32_MAX →
        U64_MAX < rl1.total_proofs + 1 →
         check_and_update_rate_limit rl config now = .error .Overflow) ∧
       (rl1.proofs_today < config.max_proofs_per_day →
        rl1.proofs_today + 1 ≤ U32_MAX →
        rl1.total_proofs + 1 ≤ U64_MAX →
         check_and_update_rate_limit rl config now =
           .ok { rl1 with proofs_today := rl1.proofs_today + 1, last_proof_at := now, total_proofs := rl1.total_proofs + 1 }))) := by
  constructor
  · intro hcool
    unfold check_and_update_rate_limit
    simp [hcool]
  · intro hcool
    refine ⟨?_, ?_, ?_, ?_⟩ <;>
      · intros
        unfold check_and_update_rate_limit
        simp only [if_neg hcool]
        simp_all [u32CheckedAdd, u64CheckedAdd, Nat.not_lt_of_le, Nat.not_le_of_lt]

/-- Rate-limit record whose last_proof_at lies in the future of `now = 0`:
the clock went backward. -/
def cexRateLimit : WalletRateLimit where
  wallet := demoWallet
  proofs_today := 0
  last_proof_at := 10
  day_start := 0
  total_proofs := 0
  bump := 255

/-- Demo config with a zero cooldown (a value update_rate_limits accepts). -/
def cexConfigZeroCooldown : ConfigAccount :=
  { demoConfig with cooldown_seconds := 0 }

/-- Counterexample for C7 as frozen: with last_proof_at = 10, now = 0 and
cooldown_seconds = 0, elapsed saturated at zero would be 0 and not below
the cooldown, so the claim predicts no RateLimitCooldown failure; the code
computes the i64 saturating difference -10 and does fail with
RateLimitCooldown. -/
theorem rate_limit_saturating_zero_cex :
    check_and_update_rate_limit cexRateLimit cexConfigZeroCooldown 0 =
      .error .RateLimitCooldown ∧
    ¬ max 0 ((0 : Int) - cexRateLimit.last_proof_at) <
        cexConfigZeroCooldown.cooldown_seconds := by
  constructor
  · decide
  · decide

/-! ## C3: bound on proofs_today over reachable states -/

/-- C3 (amended): under a fixed rate-limit configuration, every committed
state of a wallet's rate-limit record satisfies
proofs_today ≤ max_proofs_per_day.  The strict bound of the frozen claim
does not hold: equality is reached as soon as the day's last allowed proof
is recorded. -/
theorem proofs_today_bounded (config : ConfigAccount) (rl : WalletRateLimit)
    (h : RateLimitReachable config rl) :
    rl.proofs_today ≤ config.max_proofs_per_day := by
  induction h with
  | init wallet now bump => simp [init_rate_limit]
  | @step rl0 rl1 now hreach hok ih =>
    unfold check_and_update_rate_limit at hok
    split at hok
    · simp at hok
    · simp only [] at hok
      split at hok
      all_goals
        split at hok
        · rename_i hlt
          split at hok
          · simp at hok
          · rename_i pt hpt
            split at hok
            · simp at hok
            · simp only [Except.ok.injEq] at hok
              subst hok
              unfold u32CheckedAdd at hpt
              split at hpt
              · simp only [Option.some.injEq] at hpt
                simp only []
                omega
              · simp at hpt
        · simp at hok

/-- Witness for C3: a freshly initialized record is reachable and within
the bound. -/
theorem proofs_today_bounded_witness :
    (init_rate_limit demoWallet 0 255).proofs_today ≤ demoConfig.max_proofs_per_day :=
  proofs_today_bounded demoConfig (init_rate_limit demoWallet 0 255)
    (RateLimitReachable.init demoWallet 0 255)

/-- Demo config with max_proofs_per_day = 1 and no cooldown (values
update_rate_limits accepts). -/
def cexC3Config : ConfigAccount :=
  { demoConfig with max_proofs_per_day := 1, cooldown_seconds := 0 }

/-- The committed rate-limit state after one successful proof at t = 0
starting from the freshly initialized record. -/
def cexC3State : WalletRateLimit where
  wallet := demoWallet
  proofs_today := 1
  last_proof_at := 0
  day_start := 0
  total_proofs := 1
  bump := 255

/-- Counterexample for C3 as frozen: with max_proofs_per_day = 1 and
cooldown_seconds = 0, one successful proof starting from the freshly
initialized record reaches a committed state with proofs_today = 1, where
proofs_today < max_proofs_per_day fails. -/
theorem proofs_today_strict_bound_cex :
    RateLimitReachable cexC3Config cexC3State ∧
    ¬ cexC3State.proofs_today < cexC3Config.max_proofs_per_day := by
  constructor
  · have h0 : check_and_update_rate_limit (init_rate_limit demoWallet 0 255) cexC3Config 0 =
        .ok cexC3State := by decide
    exact RateLimitReachable.step (RateLimitReachable.init demoWallet 0 255) h0
  · decide

/-! ## C1: a used nullifier is never consumed again -/

/-- C1 (amended): a record_attestation call whose nullifier account
already has is_used = true always fails, and fails with
NullifierAlreadyUsed whenever the verifier account passed is active; when
the verifier account is inactive the call still fails, with
VerifierNotAuthorized, since Anchor checks that account constraint first.
An error result is the aborted instruction, so the nullifier record, the
wallet's rate-limit counters, the verifier's attestation_count and the
config's total_proofs_verified all stay unchanged, and is_used transitions
false to true at most once. -/
theorem nullifier_already_used_rejected (s : RecordAttestationState)
    (currentIndex : Nat) (instructions : List Instruction)
    (attestation_hash : List Nat) (proof_type_value : Nat) (nullifier : List Nat)
    (signature : List Nat) (now : Int)
    (h : s.nullifier_account.is_used = true) :
    (∃ e, record_attestation s currentIndex instructions attestation_hash proof_type_value
        nullifier signature now = .error e) ∧
    (s.verifier_account.is_active = true →
      record_attestation s currentIndex instructions attestation_hash proof_type_value
        nullifier signature now = .error .NullifierAlreadyUsed) := by
  unfold record_attestation
  by_cases ha : s.verifier_account.is_active = true
  · simp [ha, h]
  · simp [ha, h]

/-- State for the C1 witness: active verifier, nullifier already used. -/
def demoUsedState : RecordAttestationState where
  config := demoConfig
  verifier_account := demoVerifier
  nullifier_account := { init_nullifier demoNullifier 255 with
                         is_used := true
                         used_at := 50
                         proof_type := ProofType.DeveloperReputation }
  rate_limit := init_rate_limit demoWallet 0 255

/-- Witness for C1: the demo call on a used nullifier with an active
verifier fails with NullifierAlreadyUsed. -/
theorem nullifier_already_used_rejected_witness :
    record_attestation demoUsedState 1 [] demoHash 1 demoNullifier demoSig 100 =
      .error .NullifierAlreadyUsed :=
  (nullifier_already_used_rejected demoUsedState 1 [] demoHash 1 demoNullifier demoSig 100
      rfl).2 rfl

/-- State for the C1 counterexample: nullifier already used and the
verifier account deactivated (as after remove_verifier). -/
def cexC1State : RecordAttestationState where
  config := demoConfig
  verifier_account := { demoVerifier with is_active := false }
  nullifier_account := { init_nullifier demoNullifier 255 with
                         is_used := true
                         used_at := 50
                         proof_type := ProofType.DeveloperReputation }
  rate_limit := init_rate_limit demoWallet 0 255

/-- Counterexample for C1 as frozen: a record_attestation call whose
nullifier account has is_used = true but whose verifier account is
inactive fails with VerifierNotAuthorized, not with NullifierAlreadyUsed. -/
theorem nullifier_already_used_rejected_cex :
    cexC1State.nullifier_account.is_used = true ∧
    record_attestation cexC1State 1 [] demoHash 1 demoNullifier demoSig 100 =
      .error .VerifierNotAuthorized ∧
    VouchError.VerifierNotAuthorized ≠ VouchError.NullifierAlreadyUsed := by
  refine ⟨rfl, by decide, by decide⟩

/-! ## C6: unknown proof-type codes never commit -/

/-- C6 (amended): a record_attestation call with a proof_type_value
outside {1, 2} never succeeds; when every earlier check passes (protocol
not paused, verifier active, nullifier unused, rate limit satisfied,
signature binding satisfied) it fails with InvalidProofType, and when an
earlier check fails it fails with that check's error.  Either way the
error result is the aborted instruction: the nullifier record, the
rate-limit record, the verifier's attestation_count and the config's
total_proofs_verified are not committed. -/
theorem invalid_proof_type_rejected (s : RecordAttestationState)
    (currentIndex : Nat) (instructions : List Instruction)
    (attestation_hash : List Nat) (proof_type_value : Nat) (nullifier : List Nat)
    (signature : List Nat) (now : Int)
    (h1 : proof_type_value ≠ 1) (h2 : proof_type_value ≠ 2) :
    (∀ s1, record_attestation s currentIndex instructions attestation_hash proof_type_value
        nullifier signature now ≠ .ok s1) ∧
    (s.config.is_paused = false →
     s.verifier_account.is_active = true →
     s.nullifier_account.is_used = false →
     (∃ rl1, check_and_update_rate_limit s.rate_limit s.config now = .ok rl1) →
     verify_ed25519_signature currentIndex instructions s.verifier_account.verifier signature
       (build_attestation_message proof_type_value nullifier attestation_hash) = .ok () →
     record_attestation s currentIndex instructions attestation_hash proof_type_value
       nullifier signature now = .error .InvalidProofType) := by
  constructor
  · intro s1 hok
    unfold record_attestation at hok
    repeat' split at hok
    all_goals
      first
      | (simp_all; done)
      | (simp only [] at hok
         cases hv : verify_ed25519_signature currentIndex instructions
            s.verifier_account.verifier signature
            (build_attestation_message proof_type_value nullifier attestation_hash) <;>
          rw [hv] at hok <;> simp_all)
  · intro hpause hactive hunused hex hsig
    obtain ⟨rl1, hrl⟩ := hex
    unfold record_attestation
    simp only [hpause, hactive, hunused, hrl, hsig]
    simp only [not_true_eq_false, Bool.false_eq_true, if_false, if_true]

/-- Fresh demo state: unpaused config, active verifier, unused nullifier,
rate limit initialized at t = 1000. -/
def demoFreshState : RecordAttestationState where
  config := demoConfig
  verifier_account := demoVerifier
  nullifier_account := init_nullifier demoNullifier 255
  rate_limit := init_rate_limit demoWallet 1000 255

/-- The 82-byte attestation message carrying the unknown proof-type code 3. -/
def demoMsg3 : List Nat := build_attestation_message 3 demoNullifier demoHash

/-- An Ed25519-program instruction whose embedded signature, pubkey and
message are exactly the demo signature, the demo verifier identity and the
code-3 demo message: header [1 signature, offsets 16/80/112, size 82],
then the three payloads. -/
def demoIx3 : Instruction where
  program_id := ed25519ProgramId
  data := [1, 0, 16, 0, 0, 0, 80, 0, 0, 0, 112, 0, 82, 0, 0, 0] ++
    demoSig ++ demoVerifierPk ++ demoMsg3

set_option maxRecDepth 100000 in
/-- Witness for C6: the demo call with code 3 and every earlier check
passing fails with InvalidProofType. -/
theorem invalid_proof_type_rejected_witness :
    record_attestation demoFreshState 1 [demoIx3] demoHash 3 demoNullifier demoSig 1000 =
      .error .InvalidProofType :=
  (invalid_proof_type_rejected demoFreshState 1 [demoIx3] demoHash 3 demoNullifier demoSig 1000
      (by decide) (by decide)).2 rfl rfl rfl ⟨_, rfl⟩ (by decide)

/-- Demo state with the protocol paused. -/
def cexC6State : RecordAttestationState :=
  { demoFreshState with config := { demoConfig with is_paused := true } }

/-- Counterexample for C6 as frozen: with the protocol paused, a
record_attestation call with proof_type_value = 3 fails with
ProtocolPaused, not with InvalidProofType. -/
theorem invalid_proof_type_rejected_cex :
    (3 : Nat) ≠ 1 ∧ (3 : Nat) ≠ 2 ∧
    record_attestation cexC6State 1 [] demoHash 3 demoNullifier demoSig 1000 =
      .error .ProtocolPaused ∧
    VouchError.ProtocolPaused ≠ VouchError.InvalidProofType := by
  refine ⟨by decide, by decide, by decide, by decide⟩

/-! ## C2: exact byte binding of the Ed25519 companion instruction -/

/-- The data checks succeed only when the three embedded byte strings,
read at the offsets the instruction header declares, equal the expected
signature, verifier pubkey and message exactly. -/
theorem check_ed25519_instruction_data_ok (ix_data pk sig msg : List Nat)
    (h : check_ed25519_instruction_data ix_data pk sig msg = .ok ()) :
    (ix_data.drop (leU16 (ix_data.getD 2 0) (ix_data.getD 3 0))).take
        ED25519_SIGNATURE_SIZE = sig ∧
    (ix_data.drop (leU16 (ix_data.getD 6 0) (ix_data.getD 7 0))).take
        ED25519_PUBKEY_SIZE = pk ∧
    (ix_data.drop (leU16 (ix_data.getD 10 0) (ix_data.getD 11 0))).take
        (leU16 (ix_data.getD 12 0) (ix_data.getD 13 0)) = msg := by
  unfold check_ed25519_instruction_data at h
  repeat' split at h
  all_goals simp_all

/-- Every failure of the data checks carries InvalidSignature. -/
theorem check_ed25519_instruction_data_error (ix_data pk sig msg : List Nat)
    (e : VouchError)
    (h : check_ed25519_instruction_data ix_data pk sig msg = .error e) :
    e = .InvalidSignature := by
  unfold check_ed25519_instruction_data at h
  repeat' split at h
  all_goals
    first
    | exact (Except.error.inj h).symm
    | simp at h


/-- C2: verify_ed25519_signature, as invoked by record_attestation on the
reconstructed 82-byte attestation message, succeeds only if the
instruction immediately preceding the current one exists and is an
Ed25519-program instruction whose embedded signature, public-key and
message bytes, read at the offsets its header declares, are byte-for-byte
the caller's signature, the registered verifier's identity and the
reconstructed message; and every failure, including the absence of such a
preceding instruction, is InvalidSignature — so a single-byte difference
in any of the three, which falsifies the corresponding equality, is
rejected with InvalidSignature. -/
theorem ed25519_binding_exact (currentIndex : Nat) (instructions : List Instruction)
    (verifier_pubkey signature : List Nat)
    (proof_type_value : Nat) (nullifier attestation_hash : List Nat) :
    (verify_ed25519_signature currentIndex instructions verifier_pubkey signature
        (build_attestation_message proof_type_value nullifier attestation_hash) = .ok () →
      1 ≤ currentIndex ∧
      ∃ ix, instructions.get? (currentIndex - 1) = some ix ∧
        ix.program_id = ed25519ProgramId ∧
        (ix.data.drop (leU16 (ix.data.getD 2 0) (ix.data.getD 3 0))).take
            ED25519_SIGNATURE_SIZE = signature ∧
        (ix.data.drop (leU16 (ix.data.getD 6 0) (ix.data.getD 7 0))).take
            ED25519_PUBKEY_SIZE = verifier_pubkey ∧
        (ix.data.drop (leU16 (ix.data.getD 10 0) (ix.data.getD 11 0))).take
            (leU16 (ix.data.getD 12 0) (ix.data.getD 13 0)) =
          build_attestation_message proof_type_value nullifier attestation_hash) ∧
    (∀ e, verify_ed25519_signature currentIndex instructions verifier_pubkey signature
        (build_attestation_message proof_type_value nullifier attestation_hash) = .error e →
      e = .InvalidSignature) := by
  constructor
  · intro hok
    unfold verify_ed25519_signature at hok
    split at hok
    · simp at hok
    · rename_i hidx
      refine ⟨by omega, ?_⟩
      split at hok
      · simp at hok
      · rename_i ix hix
        split at hok
        · simp at hok
        · rename_i hpid
          exact ⟨ix, hix, not_not.mp hpid,
            check_ed25519_instruction_data_ok _ _ _ _ hok⟩
  · intro e he
    unfold verify_ed25519_signature at he
    split at he
    · exact (Except.error.inj he).symm
    · split at he
      · exact (Except.error.inj he).symm
      · split at he
        · exact (Except.error.inj he).symm
        · exact check_ed25519_instruction_data_error _ _ _ _ _ he

/-! ## C9: campaign status is forward-only -/

/-- C9: close_airdrop_registration requires status Open (CampaignNotOpen
otherwise) and sets RegistrationClosed; complete_airdrop_campaign requires
status RegistrationClosed (CampaignNotClosed otherwise) and sets
Completed; and every operation that writes a campaign record keeps its
status monotone in the order Open < RegistrationClosed < Completed, so no
reachable transition moves the status backward. -/
theorem campaign_status_forward :
    (∀ c : AirdropCampaign, c.status = CampaignStatus.Open →
      close_airdrop_registration c =
        .ok { c with status := CampaignStatus.RegistrationClosed }) ∧
    (∀ c : AirdropCampaign, c.status ≠ CampaignStatus.Open →
      close_airdrop_registration c = .error .CampaignNotOpen) ∧
    (∀ (c : AirdropCampaign) (now : Int), c.status = CampaignStatus.RegistrationClosed →
      complete_airdrop_campaign c now =
        .ok { c with status := CampaignStatus.Completed, completed_at := now }) ∧
    (∀ (c : AirdropCampaign) (now : Int), c.status ≠ CampaignStatus.RegistrationClosed →
      complete_airdrop_campaign c now = .error .CampaignNotClosed) ∧
    (∀ c c1 : AirdropCampaign, CampaignStep c c1 →
      statusRank c.status ≤ statusRank c1.status) := by
  refine ⟨?_, ?_, ?_, ?_, ?_⟩
  · intro c hc
    unfold close_airdrop_registration
    simp [hc]
  · intro c hc
    unfold close_airdrop_registration
    simp [hc]
  · intro c now hc
    unfold complete_airdrop_campaign
    simp [hc]
  · intro c now hc
    unfold complete_airdrop_campaign
    simp [hc]
  · intro c c1 hstep
    cases hstep with
    | close h =>
      unfold close_airdrop_registration at h
      split at h
      · rename_i hc
        simp only [Except.ok.injEq] at h
        subst h
        simp [statusRank, hc]
      · simp at h
    | complete h =>
      unfold complete_airdrop_campaign at h
      split at h
      · rename_i hc
        simp only [Except.ok.injEq] at h
        subst h
        simp [statusRank, hc]
      · simp at h
    | fund h =>
      unfold fund_airdrop_campaign at h
      repeat' split at h
      all_goals
        first
        | (simp_all; done)
        | ((try simp only [] at h)
           simp only [Except.ok.injEq, Prod.mk.injEq] at h
           first
           | (obtain ⟨hcamp, hreg⟩ := h
              subst hcamp
              simp_all [statusRank])
           | (subst h
              simp_all [statusRank]))
    | registerVerified h =>
      unfold register_for_airdrop at h
      repeat' split at h
      all_goals
        first
        | (simp_all; done)
        | ((try simp only [] at h)
           simp only [Except.ok.injEq, Prod.mk.injEq] at h
           first
           | (obtain ⟨hcamp, hreg⟩ := h
              subst hcamp
              simp_all [statusRank])
           | (subst h
              simp_all [statusRank]))
    | registerOpen h =>
      unfold register_for_airdrop_open at h
      repeat' split at h
      all_goals
        first
        | (simp_all; done)
        | ((try simp only [] at h)
           simp only [Except.ok.injEq, Prod.mk.injEq] at h
           first
           | (obtain ⟨hcamp, hreg⟩ := h
              subst hcamp
              simp_all [statusRank])
           | (subst h
              simp_all [statusRank]))
    | claim h =>
      unfold claim_airdrop at h
      repeat' split at h
      all_goals
        first
        | (simp_all; done)
        | ((try simp only [] at h)
           simp only [Except.ok.injEq, Prod.mk.injEq] at h
           first
           | (obtain ⟨hcamp, hreg⟩ := h
              subst hcamp
              simp_all [statusRank])
           | (subst h
              simp_all [statusRank]))

/-! ## C10: distribution mark and direct claim are independent -/

/-- C10: mark_airdrop_distributed guards only on is_distributed and
claim_airdrop guards only on is_claimed; neither reads the other flag or
the campaign status, so on a registration with both flags clear — given a
representable claim amount, sufficient vault funds and headroom on the
campaign's claim counter — both operations succeed in either order,
reaching a state with is_distributed = true and is_claimed = true: the
registration receives both the external distribution mark and the
on-chain claimed payout. -/
theorem mark_and_claim_independent (s : ClaimAirdropState) (tx : String)
    (now1 now2 : Int) (a : Nat)
    (hd : s.registration.is_distributed = false)
    (hc : s.registration.is_claimed = false)
    (ha : airdrop_claim_amount s.campaign s.registration.proof_type = some a)
    (hv : a ≤ s.vault_amount)
    (htc : s.campaign.total_claimed + 1 ≤ U32_MAX) :
    (∃ reg1 s2, mark_airdrop_distributed s.registration tx now1 = .ok reg1 ∧
       claim_airdrop { s with registration := reg1 } now2 = .ok s2 ∧
       s2.registration.is_distributed = true ∧ s2.registration.is_claimed = true) ∧
    (∃ s2 reg2, claim_airdrop s now2 = .ok s2 ∧
       mark_airdrop_distributed s2.registration tx now1 = .ok reg2 ∧
       reg2.is_distributed = true ∧ reg2.is_claimed = true) := by
  have hnotlt : ¬ s.vault_amount < a := Nat.not_lt.mpr hv
  have htc2 : u32CheckedAdd s.campaign.total_claimed 1 =
      some (s.campaign.total_claimed + 1) := by
    unfold u32CheckedAdd
    simp [htc]
  constructor
  · have hmark : mark_airdrop_distributed s.registration tx now1 = .ok
        { s.registration with
          is_distributed := true, distributed_at := now1, distribution_tx := tx } := by
      unfold mark_airdrop_distributed
      simp [hd]
    have hclaim : claim_airdrop
        { s with registration := { s.registration with
            is_distributed := true, distributed_at := now1, distribution_tx := tx } }
        now2 = .ok
        { campaign := { s.campaign with
                        vault_balance := s.campaign.vault_balance - a
                        total_claimed := s.campaign.total_claimed + 1 }
          registration := { s.registration with
                            is_distributed := true
                            distributed_at := now1
                            distribution_tx := tx
                            is_claimed := true
                            claimed_at := now2
                            claimed_amount := a }
          vault_amount := s.vault_amount - a
          claimer_amount := s.claimer_amount + a } := by
      unfold claim_airdrop
      simp only [hc, ha, htc2, hnotlt, Bool.false_eq_true, if_false, ite_false]
    exact ⟨_, _, hmark, hclaim, rfl, rfl⟩
  · have hclaim : claim_airdrop s now2 = .ok
        { campaign := { s.campaign with
                        vault_balance := s.campaign.vault_balance - a
                        total_claimed := s.campaign.total_claimed + 1 }
          registration := { s.registration with
                            is_claimed := true
                            claimed_at := now2
                            claimed_amount := a }
          vault_amount := s.vault_amount - a
          claimer_amount := s.claimer_amount + a } := by
      unfold claim_airdrop
      simp only [hc, ha, htc2, hnotlt, Bool.false_eq_true, if_false, ite_false]
    have hmark : mark_airdrop_distributed
        { s.registration with is_claimed := true, claimed_at := now2, claimed_amount := a }
        tx now1 = .ok { s.registration with
                        is_claimed := true
                        claimed_at := now2
                        claimed_amount := a
                        is_distributed := true
                        distributed_at := now1
                        distribution_tx := tx } := by
      unfold mark_airdrop_distributed
      simp [hd]
    exact ⟨_, _, hclaim, hmark, rfl, rfl⟩

/-- Witness for C10 at the demo claim state: developer tier, amount 150,
vault 500. -/
theorem mark_and_claim_independent_witness :
    ∃ reg1 s2, mark_airdrop_distributed demoClaimState.registration "tx1" 30 = .ok reg1 ∧
      claim_airdrop { demoClaimState with registration := reg1 } 40 = .ok s2 ∧
      s2.registration.is_distributed = true ∧ s2.registration.is_claimed = true :=
  (mark_and_claim_independent demoClaimState "tx1" 30 40 150 rfl rfl (by decide) (by decide)
      (by decide)).1

end VouchProtocol
